import Mathlib

/-!
Verification of the earthquake ground-motion selection service
(`selection_service`): a shallow embedding in Lean 4 of the scoring and
selection engine (`processing/Selection.py`), the pipeline stages
(`core/Pipeline.py`) and the scoring registry (`core/Config.py`), together
with theorems settling the specification claims.

Modelling conventions:
* Python floats are modelled as exact rationals (`ℚ`); `math.exp` is kept
  abstract (the scoring engine is parametrised by a function `expNeg`
  standing for `x ↦ e^(-x)`, constrained only by the properties of the real
  exponential that the source relies on: values in `[0,1]` on nonnegative
  arguments).
* A pandas cell is a `Value`: null (`NaN`/`None`), a number, or a string.
* A pandas row (`pd.Series`) is an association list from column names to
  values; a `DataFrame` is a column-name list plus a row list.
* `pandas.sort_values(ascending=False)` with its default (unstable,
  quicksort) kind guarantees only a descending reordering of the rows; it is
  therefore modelled relationally by the predicate `IsSortOf`.
* Code raising exceptions is modelled with `Except`; the repository's
  `ResultHandle.py` / `ErrorHandle.py` modules are not part of the sources
  and are modelled from the spec where needed (marked in doc comments).
-/

namespace SelSvc

/-- A pandas cell: missing/NaN, a numeric value, or a text value. -/
inductive Value where
  | null : Value
  | num  : ℚ → Value
  | str  : String → Value
deriving DecidableEq, Repr

/-- `pd.isna` on a cell. -/
def Value.isna : Value → Bool
  | .null => true
  | _ => false

/-- Is the cell a text (string) cell?  Used to decide `object` dtype. -/
def Value.isStr : Value → Bool
  | .str _ => true
  | _ => false

/-- A row (`pd.Series` indexed by column names): association list, first
match wins. -/
abbrev Row : Type := List (String × Value)

/-- Cell lookup in a row; a column absent from the row reads as null
(pandas yields `NaN` for columns a source did not provide). -/
def Row.get (r : Row) (c : String) : Value :=
  match r.find? (fun p => p.1 = c) with
  | some p => p.2
  | none => Value.null

/-- Membership test: `col_name in record` on a `pd.Series`. -/
def Row.hasCol (r : Row) (c : String) : Bool :=
  (r.find? (fun p => p.1 = c)).isSome

/-- Restrict a row to the given columns (in that order), reading absent
columns as null. -/
def Row.restrict (r : Row) (cols : List String) : Row :=
  cols.map (fun c => (c, r.get c))

/-- A pandas `DataFrame`: ordered column names and rows. -/
structure DataFrame where
  cols : List String
  rows : List Row
deriving DecidableEq

/-- `pd.DataFrame()` – the empty frame. -/
def DataFrame.emptyDF : DataFrame := ⟨[], []⟩

/-- `df.empty` in pandas: true when either axis has length 0. -/
def DataFrame.isEmptyDF (df : DataFrame) : Bool :=
  df.rows.isEmpty || df.cols.isEmpty

end SelSvc

namespace SelSvc

/-! ## Selection engine (`BaseSelectionStrategy._apply_selection_rules`) -/

/-- `SelectionConfig` (Selection.py).  `num_records`, `max_per_station` and
`max_per_event` are Python ints used only in `≥` comparisons against
running counts, so they are modelled as naturals; `min_score` is a float. -/
structure SelectionConfig where
  num_records : Nat := 22
  max_per_station : Nat := 3
  max_per_event : Nat := 3
  min_score : ℚ := 50
deriving DecidableEq

/-- Numeric reading of a scored row's `SCORE` cell (scoring always writes a
numeric cell; pandas would raise on a non-numeric one when comparing). -/
def rowScore (r : Row) : ℚ :=
  match r.get "SCORE" with
  | .num q => q
  | _ => 0

/-- `record.get('STATION', '')` in `_apply_selection_rules`. -/
def stationOf (r : Row) : Value :=
  match r.find? (fun p => p.1 = "STATION") with
  | some p => p.2
  | none => .str ""

/-- `record.get('EVENT', '')` in `_apply_selection_rules`. -/
def eventOf (r : Row) : Value :=
  match r.find? (fun p => p.1 = "EVENT") with
  | some p => p.2
  | none => .str ""

/-- A Python dict used as a counter (`station_counts` / `event_counts`):
insertion-ordered association list. -/
def CountMap : Type := List (Value × Nat)

/-- `counts.get(v, 0)`. -/
def CountMap.look : CountMap → Value → Nat
  | [], _ => 0
  | (k, n) :: rest, v => if k = v then n else CountMap.look rest v

/-- `counts[v] = counts.get(v, 0) + 1`. -/
def CountMap.bump : CountMap → Value → CountMap
  | [], v => [(v, 1)]
  | (k, n) :: rest, v =>
      if k = v then (k, n + 1) :: rest else (k, n) :: CountMap.bump rest v

/-- The greedy acceptance loop of `_apply_selection_rules`, walking the
score-sorted rows: stop once `num_records` are accepted; skip a row whose
station or event has reached its cap; otherwise accept it and bump both
counters. -/
def greedyPick (cfg : SelectionConfig) :
    Nat → CountMap → CountMap → List Row → List Row
  | _, _, _, [] => []
  | nSel, sc, ec, r :: rest =>
      if cfg.num_records ≤ nSel then []
      else
        let st := stationOf r
        let ev := eventOf r
        if cfg.max_per_station ≤ sc.look st ∨ cfg.max_per_event ≤ ec.look ev then
          greedyPick cfg nSel sc ec rest
        else
          r :: greedyPick cfg (nSel + 1) (sc.bump st) (ec.bump ev) rest

/-- `_apply_selection_rules`, given the rows already filtered by
`SCORE >= min_score` and sorted by `sort_values('SCORE', ascending=False)`
(see `IsSortOf`).  The source's early return on an empty filtered frame
coincides with the loop returning `[]`. -/
def applySelectionRulesOn (cfg : SelectionConfig) (sortedRows : List Row) :
    List Row :=
  greedyPick cfg 0 [] [] sortedRows

/-- The filter step `df_scored[df_scored['SCORE'] >= min_score]`. -/
def filterByMinScore (cfg : SelectionConfig) (scored : List Row) : List Row :=
  scored.filter (fun r => cfg.min_score ≤ rowScore r)

/-- Descending `SCORE` order. -/
def SortedByScoreDesc (l : List Row) : Prop :=
  l.Pairwise (fun a b => rowScore b ≤ rowScore a)

instance (l : List Row) : Decidable (SortedByScoreDesc l) :=
  inferInstanceAs (Decidable (l.Pairwise _))

/-- What `sort_values('SCORE', ascending=False)` (default, unstable
`quicksort` kind) guarantees about its output: a permutation of the
filtered rows that is in descending `SCORE` order.  Tie order is not
specified by pandas for the default kind. -/
def IsSortOf (cfg : SelectionConfig) (scored sortedRows : List Row) : Prop :=
  sortedRows.Perm (filterByMinScore cfg scored) ∧ SortedByScoreDesc sortedRows

instance (cfg : SelectionConfig) (scored sortedRows : List Row) :
    Decidable (IsSortOf cfg scored sortedRows) :=
  inferInstanceAs (Decidable (_ ∧ _))

end SelSvc

namespace SelSvc

/-! ## Invariants of the greedy selection loop -/

theorem CountMap.look_bump_self (m : CountMap) (v : Value) :
    (m.bump v).look v = m.look v + 1 := by
  induction m with
  | nil => simp [CountMap.bump, CountMap.look]
  | cons p rest ih =>
      obtain ⟨k, n⟩ := p
      by_cases h : k = v
      · simp [CountMap.bump, CountMap.look, h]
      · simp [CountMap.bump, CountMap.look, h, ih]

theorem CountMap.look_bump_ne (m : CountMap) {v w : Value} (h : v ≠ w) :
    (m.bump v).look w = m.look w := by
  induction m with
  | nil => simp [CountMap.bump, CountMap.look, h]
  | cons p rest ih =>
      obtain ⟨k, n⟩ := p
      by_cases hk : k = v
      · subst hk
        simp [CountMap.bump, CountMap.look, h]
      · simp [CountMap.bump, CountMap.look, hk, ih]

theorem greedyPick_sublist (cfg : SelectionConfig) :
    ∀ (l : List Row) (n : Nat) (sc ec : CountMap),
      (greedyPick cfg n sc ec l).Sublist l := by
  intro l
  induction l with
  | nil => intro n sc ec; simp [greedyPick]
  | cons r rest ih =>
      intro n sc ec
      by_cases hstop : cfg.num_records ≤ n
      · simp [greedyPick, hstop]
      · by_cases hskip :
          cfg.max_per_station ≤ CountMap.look sc (stationOf r) ∨
            cfg.max_per_event ≤ CountMap.look ec (eventOf r)
        · simpa [greedyPick, hstop, hskip] using (ih n sc ec).cons r
        · simpa [greedyPick, hstop, hskip] using
            (ih (n + 1) (sc.bump (stationOf r)) (ec.bump (eventOf r))).cons₂ r

theorem greedyPick_length (cfg : SelectionConfig) :
    ∀ (l : List Row) (n : Nat) (sc ec : CountMap),
      (greedyPick cfg n sc ec l).length + n ≤ max n cfg.num_records := by
  intro l
  induction l with
  | nil => intro n sc ec; simp [greedyPick]
  | cons r rest ih =>
      intro n sc ec
      by_cases hstop : cfg.num_records ≤ n
      · simp [greedyPick, hstop]
      · by_cases hskip :
          cfg.max_per_station ≤ CountMap.look sc (stationOf r) ∨
            cfg.max_per_event ≤ CountMap.look ec (eventOf r)
        · simpa [greedyPick, hstop, hskip] using ih n sc ec
        · have h := ih (n + 1) (sc.bump (stationOf r)) (ec.bump (eventOf r))
          have hcons :
              greedyPick cfg n sc ec (r :: rest) =
                r :: greedyPick cfg (n + 1) (sc.bump (stationOf r))
                  (ec.bump (eventOf r)) rest := by
            simp [greedyPick, hstop, hskip]
          rw [hcons, List.length_cons]
          have h1 : max n cfg.num_records = cfg.num_records :=
            Nat.max_eq_right (by omega)
          have h2 : max (n + 1) cfg.num_records = cfg.num_records :=
            Nat.max_eq_right (by omega)
          rw [h2] at h
          rw [h1]
          omega

theorem greedyPick_station_cap (cfg : SelectionConfig) :
    ∀ (l : List Row) (n : Nat) (sc ec : CountMap) (v : Value),
      (greedyPick cfg n sc ec l).countP (fun r => decide (stationOf r = v)) +
          sc.look v ≤ max (sc.look v) cfg.max_per_station := by
  intro l
  induction l with
  | nil => intro n sc ec v; simp [greedyPick]
  | cons r rest ih =>
      intro n sc ec v
      by_cases hstop : cfg.num_records ≤ n
      · simp [greedyPick, hstop]
      · by_cases hskip :
          cfg.max_per_station ≤ CountMap.look sc (stationOf r) ∨
            cfg.max_per_event ≤ CountMap.look ec (eventOf r)
        · simpa [greedyPick, hstop, hskip] using ih n sc ec v
        · have hst : CountMap.look sc (stationOf r) < cfg.max_per_station := by
            rcases not_or.mp hskip with ⟨h1, _⟩
            omega
          have hcons :
              greedyPick cfg n sc ec (r :: rest) =
                r :: greedyPick cfg (n + 1) (sc.bump (stationOf r))
                  (ec.bump (eventOf r)) rest := by
            simp [greedyPick, hstop, hskip]
          rw [hcons]
          by_cases hv : stationOf r = v
          · subst hv
            rw [List.countP_cons_of_pos _ _ (by simp)]
            have h2 := ih (n + 1) (sc.bump (stationOf r)) (ec.bump (eventOf r))
              (stationOf r)
            rw [CountMap.look_bump_self] at h2
            have hm1 :
                max (sc.look (stationOf r) + 1) cfg.max_per_station =
                  cfg.max_per_station := Nat.max_eq_right (by omega)
            have hm2 :
                max (sc.look (stationOf r)) cfg.max_per_station =
                  cfg.max_per_station := Nat.max_eq_right (by omega)
            rw [hm1] at h2
            rw [hm2]
            omega
          · rw [List.countP_cons_of_neg _ _ (by simp [hv])]
            have h2 := ih (n + 1) (sc.bump (stationOf r)) (ec.bump (eventOf r)) v
            rw [CountMap.look_bump_ne sc hv] at h2
            exact h2

theorem greedyPick_event_cap (cfg : SelectionConfig) :
    ∀ (l : List Row) (n : Nat) (sc ec : CountMap) (v : Value),
      (greedyPick cfg n sc ec l).countP (fun r => decide (eventOf r = v)) +
          ec.look v ≤ max (ec.look v) cfg.max_per_event := by
  intro l
  induction l with
  | nil => intro n sc ec v; simp [greedyPick]
  | cons r rest ih =>
      intro n sc ec v
      by_cases hstop : cfg.num_records ≤ n
      · simp [greedyPick, hstop]
      · by_cases hskip :
          cfg.max_per_station ≤ CountMap.look sc (stationOf r) ∨
            cfg.max_per_event ≤ CountMap.look ec (eventOf r)
        · simpa [greedyPick, hstop, hskip] using ih n sc ec v
        · have hev : CountMap.look ec (eventOf r) < cfg.max_per_event := by
            rcases not_or.mp hskip with ⟨_, h2⟩
            omega
          have hcons :
              greedyPick cfg n sc ec (r :: rest) =
                r :: greedyPick cfg (n + 1) (sc.bump (stationOf r))
                  (ec.bump (eventOf r)) rest := by
            simp [greedyPick, hstop, hskip]
          rw [hcons]
          by_cases hv : eventOf r = v
          · subst hv
            rw [List.countP_cons_of_pos _ _ (by simp)]
            have h2 := ih (n + 1) (sc.bump (stationOf r)) (ec.bump (eventOf r))
              (eventOf r)
            rw [CountMap.look_bump_self] at h2
            have hm1 :
                max (ec.look (eventOf r) + 1) cfg.max_per_event =
                  cfg.max_per_event := Nat.max_eq_right (by omega)
            have hm2 :
                max (ec.look (eventOf r)) cfg.max_per_event =
                  cfg.max_per_event := Nat.max_eq_right (by omega)
            rw [hm1] at h2
            rw [hm2]
            omega
          · rw [List.countP_cons_of_neg _ _ (by simp [hv])]
            have h2 := ih (n + 1) (sc.bump (stationOf r)) (ec.bump (eventOf r)) v
            rw [CountMap.look_bump_ne ec hv] at h2
            exact h2

end SelSvc

namespace SelSvc

/-! ## Claim C1 and C6 theorems -/

/-- C1: for every scored table and every `SelectionConfig`, and every
row order the pandas sort may produce (`IsSortOf`), the selection engine
returns at most `num_records` rows, at most `max_per_station` rows sharing
any one STATION value, at most `max_per_event` rows sharing any one EVENT
value, and no row with `SCORE < min_score`; when no row reaches
`min_score` the selection is empty (and the engine is a total function —
no error is raised). -/
theorem c1_selection_invariants (cfg : SelectionConfig)
    (scored sortedRows : List Row) (h : IsSortOf cfg scored sortedRows) :
    (applySelectionRulesOn cfg sortedRows).length ≤ cfg.num_records ∧
    (∀ v, (applySelectionRulesOn cfg sortedRows).countP
        (fun r => decide (stationOf r = v)) ≤ cfg.max_per_station) ∧
    (∀ v, (applySelectionRulesOn cfg sortedRows).countP
        (fun r => decide (eventOf r = v)) ≤ cfg.max_per_event) ∧
    (∀ r ∈ applySelectionRulesOn cfg sortedRows, cfg.min_score ≤ rowScore r) ∧
    ((∀ r ∈ scored, rowScore r < cfg.min_score) →
      applySelectionRulesOn cfg sortedRows = []) := by
  refine ⟨?_, ?_, ?_, ?_, ?_⟩
  · have hl := greedyPick_length cfg sortedRows 0 [] []
    simpa [applySelectionRulesOn] using hl
  · intro v
    have hc := greedyPick_station_cap cfg sortedRows 0 [] [] v
    simpa [applySelectionRulesOn, CountMap.look] using hc
  · intro v
    have hc := greedyPick_event_cap cfg sortedRows 0 [] [] v
    simpa [applySelectionRulesOn, CountMap.look] using hc
  · intro r hr
    have hsub : r ∈ sortedRows :=
      (greedyPick_sublist cfg sortedRows 0 [] []).subset hr
    have hmemf : r ∈ filterByMinScore cfg scored := (h.1.mem_iff).mp hsub
    have := List.of_mem_filter hmemf
    exact of_decide_eq_true this
  · intro hall
    have hfil : filterByMinScore cfg scored = [] := by
      refine List.filter_eq_nil_iff.mpr ?_
      intro a ha
      simp only [decide_eq_true_eq, not_le]
      exact hall a ha
    have hnil : sortedRows = [] := by
      have := h.1
      rw [hfil] at this
      exact this.eq_nil
    rw [hnil]
    rfl

/-- Config used in the C1 witness: the `min_score=101` scenario. -/
def c1cfg : SelectionConfig :=
  { num_records := 22, max_per_station := 3, max_per_event := 3,
    min_score := 101 }

/-- A scored row with `SCORE = 90`, below the `101` floor. -/
def c1row : Row :=
  [("STATION", Value.str "S1"), ("EVENT", Value.str "E1"),
   ("SCORE", Value.num 90)]

/-- Witness for C1 at a concrete input (the `min_score=101` scenario):
the filtered table is empty, the sort of it is `[]`, and the selection is
empty without error. -/
theorem c1_witness :
    IsSortOf c1cfg [c1row] [] ∧
    (applySelectionRulesOn c1cfg []).length ≤ c1cfg.num_records ∧
    (applySelectionRulesOn c1cfg []).countP
        (fun r => decide (stationOf r = Value.str "S1")) ≤
      c1cfg.max_per_station ∧
    applySelectionRulesOn c1cfg [] = [] := by
  have h : IsSortOf c1cfg [c1row] [] := by decide
  have hmain := c1_selection_invariants c1cfg [c1row] [] h
  exact ⟨h, hmain.1, hmain.2.1 (Value.str "S1"),
    hmain.2.2.2.2 (by decide)⟩

/-- C6 (amended): the selected records appear in descending `SCORE` order
for every row order the pandas sort may produce; the tie order among
equal scores follows that (unstable, default-quicksort) sort order and is
not guaranteed to be the original input order (see the counterexample). -/
theorem c6_selected_sorted_desc (cfg : SelectionConfig)
    (scored sortedRows : List Row) (h : IsSortOf cfg scored sortedRows) :
    SortedByScoreDesc (applySelectionRulesOn cfg sortedRows) :=
  List.Pairwise.sublist (greedyPick_sublist cfg sortedRows 0 [] []) h.2

/-- Config used in the C6 instances (source defaults). -/
def c6cfg : SelectionConfig := {}

/-- First scored row of the C6 counterexample (`SCORE = 60`). -/
def c6r1 : Row :=
  [("STATION", Value.str "S1"), ("EVENT", Value.str "E1"),
   ("SCORE", Value.num 60)]

/-- Second scored row of the C6 counterexample (also `SCORE = 60`). -/
def c6r2 : Row :=
  [("STATION", Value.str "S2"), ("EVENT", Value.str "E2"),
   ("SCORE", Value.num 60)]

/-- C6 counterexample: the code sorts with `sort_values('SCORE',
ascending=False)` and pandas' default (unstable) kind, so `[c6r2, c6r1]`
is an admissible sorted order for the input `[c6r1, c6r2]` (both scores
equal `60`).  The selection output then lists the equal-score rows in the
reverse of their original order, refuting the claimed stable
tie-breaking: the output restricted to score `60` is not an
order-preserving subsequence of the input restricted to score `60`. -/
theorem c6_counterexample :
    IsSortOf c6cfg [c6r1, c6r2] [c6r2, c6r1] ∧
    rowScore c6r1 = rowScore c6r2 ∧
    applySelectionRulesOn c6cfg [c6r2, c6r1] = [c6r2, c6r1] ∧
    ¬ ((applySelectionRulesOn c6cfg [c6r2, c6r1]).filter
          (fun r => rowScore r = 60)).Sublist
        (([c6r1, c6r2] : List Row).filter (fun r => rowScore r = 60)) := by
  refine ⟨by decide, by decide, by decide, ?_⟩
  intro hsub
  have hs : ([c6r2, c6r1] : List Row).Sublist [c6r1, c6r2] := by
    simpa [applySelectionRulesOn, greedyPick, c6cfg, c6r1, c6r2]
      using hsub
  have heq : ([c6r2, c6r1] : List Row) = [c6r1, c6r2] :=
    hs.eq_of_length (by decide)
  exact absurd heq (by decide)

/-- A scored row with `SCORE = 60` for the C6 witness. -/
def c6wa : Row :=
  [("STATION", Value.str "SA"), ("EVENT", Value.str "EA"),
   ("SCORE", Value.num 60)]

/-- A scored row with `SCORE = 80` for the C6 witness. -/
def c6wb : Row :=
  [("STATION", Value.str "SB"), ("EVENT", Value.str "EB"),
   ("SCORE", Value.num 80)]

/-- Witness for C6 (amended) at a concrete input: two rows with scores
`80` and `60`, sorted descending; the selection output is in descending
`SCORE` order. -/
theorem c6_witness :
    IsSortOf c6cfg [c6wa, c6wb] [c6wb, c6wa] ∧
    SortedByScoreDesc (applySelectionRulesOn c6cfg [c6wb, c6wa]) := by
  refine ⟨by decide, ?_⟩
  exact c6_selected_sorted_desc c6cfg [c6wa, c6wb] [c6wb, c6wa] (by decide)

end SelSvc

namespace SelSvc

/-! ## Scoring registry (`Config.SCORING_MAP`) and search criteria -/

/-- The keys of `SCORING_MAP` (Config.py). -/
inductive ParamKey where
  | magnitude | rjb | rrup | repi | vs30 | pga
  | pgv | pgd | t90 | arias | depth | mechanism
deriving DecidableEq, Repr

/-- Parameter kind (`type` in `SCORING_MAP`). -/
inductive PType where
  | numeric | categorical
deriving DecidableEq, Repr

/-- `SCORING_MAP[key]['column']`. -/
def colName : ParamKey → String
  | .magnitude => "MAGNITUDE"
  | .rjb => "RJB(km)"
  | .rrup => "RRUP(km)"
  | .repi => "REPI(km)"
  | .vs30 => "VS30(m/s)"
  | .pga => "PGA(cm2/sec)"
  | .pgv => "PGV(cm/sec)"
  | .pgd => "PGD(cm)"
  | .t90 => "T90_avg(sec)"
  | .arias => "ARIAS_INTENSITY(m/sec)"
  | .depth => "HYPO_DEPTH(km)"
  | .mechanism => "MECHANISM"

/-- `SCORING_MAP[key]['weight']` (default weights). -/
def defaultWeight : ParamKey → ℚ
  | .magnitude => 5
  | .rjb => 9/2
  | .rrup => 9/2
  | .repi => 4
  | .vs30 => 4
  | .pga => 7/2
  | .pgv => 3
  | .pgd => 5/2
  | .t90 => 3
  | .arias => 2
  | .depth => 2
  | .mechanism => 3

/-- `SCORING_MAP[key].get('sigma_strictness', 4.0)`; the `mechanism` entry
has no `sigma_strictness`, so the lookup default `4.0` applies there. -/
def sigmaStrictness : ParamKey → ℚ
  | .magnitude => 4
  | .rjb => 3
  | .rrup => 3
  | .repi => 3
  | .vs30 => 5
  | .pga => 4
  | .pgv => 4
  | .pgd => 3
  | .t90 => 3
  | .arias => 3
  | .depth => 2
  | .mechanism => 4

/-- `SCORING_MAP[key]['type']`. -/
def ptype : ParamKey → PType
  | .mechanism => .categorical
  | _ => .numeric

/-- The keys in `SCORING_MAP` insertion (iteration) order. -/
def KEYS : List ParamKey :=
  [.magnitude, .rjb, .rrup, .repi, .vs30, .pga, .pgv, .pgd,
   .t90, .arias, .depth, .mechanism]

/-- `ScoringWeights` (Selection.py): per-parameter weights, defaulting to
the registry's weights. -/
structure ScoringWeights where
  magnitude : ℚ := 5
  rjb : ℚ := 9/2
  rrup : ℚ := 9/2
  repi : ℚ := 4
  vs30 : ℚ := 4
  pga : ℚ := 7/2
  pgv : ℚ := 3
  pgd : ℚ := 5/2
  t90 : ℚ := 3
  arias : ℚ := 2
  depth : ℚ := 2
  mechanism : ℚ := 3
deriving DecidableEq, Repr

/-- `ScoringWeights.get_weight` (a `getattr` on the model's fields). -/
def ScoringWeights.get_weight (w : ScoringWeights) : ParamKey → ℚ
  | .magnitude => w.magnitude
  | .rjb => w.rjb
  | .rrup => w.rrup
  | .repi => w.repi
  | .vs30 => w.vs30
  | .pga => w.pga
  | .pgv => w.pgv
  | .pgd => w.pgd
  | .t90 => w.t90
  | .arias => w.arias
  | .depth => w.depth
  | .mechanism => w.mechanism

/-- `SearchCriteria` (Selection.py), restricted to the fields that feed
scoring, sigma derivation and the range/domain validators.  The date,
geographic (lat/lon/bbox/circle), station/network/region and `Rhyp`-free
text fields are omitted: no claim involves them and they are consumed only
by providers and by the date/bbox/circle validators, which constrain only
those omitted fields.  (`min_Rhyp`/`max_Rhyp` are kept because
`check_distances` validates them.) -/
structure SearchCriteria where
  min_magnitude : Option ℚ := none
  max_magnitude : Option ℚ := none
  min_depth : Option ℚ := none
  max_depth : Option ℚ := none
  min_pga : Option ℚ := none
  max_pga : Option ℚ := none
  min_pgv : Option ℚ := none
  max_pgv : Option ℚ := none
  min_pgd : Option ℚ := none
  max_pgd : Option ℚ := none
  min_Repi : Option ℚ := none
  max_Repi : Option ℚ := none
  min_Rhyp : Option ℚ := none
  max_Rhyp : Option ℚ := none
  min_Rjb : Option ℚ := none
  max_Rjb : Option ℚ := none
  min_Rrup : Option ℚ := none
  max_Rrup : Option ℚ := none
  min_vs30 : Option ℚ := none
  max_vs30 : Option ℚ := none
  mechanisms : List String := []
  target_magnitude : Option ℚ := none
  target_rjb : Option ℚ := none
  target_rrup : Option ℚ := none
  target_repi : Option ℚ := none
  target_vs30 : Option ℚ := none
  target_pga : Option ℚ := none
  target_pgv : Option ℚ := none
  target_pgd : Option ℚ := none
  target_t90 : Option ℚ := none
  target_arias : Option ℚ := none
  target_depth : Option ℚ := none
  weights : ScoringWeights := {}
deriving DecidableEq

/-- `getattr(self, f"min_{key}", None)` in `get_effective_target` /
`get_sigma`.  The distance fields are spelled `min_Rjb`, `min_Rrup`,
`min_Repi` (capital letter) in the source, so the lowercase f-string
lookup misses them and yields `None`; `t90`, `arias` and `mechanism` have
no min/max fields at all. -/
def SearchCriteria.minAttr (c : SearchCriteria) : ParamKey → Option ℚ
  | .magnitude => c.min_magnitude
  | .depth => c.min_depth
  | .vs30 => c.min_vs30
  | .pga => c.min_pga
  | .pgv => c.min_pgv
  | .pgd => c.min_pgd
  | _ => none

/-- `getattr(self, f"max_{key}", None)`; see `SearchCriteria.minAttr`. -/
def SearchCriteria.maxAttr (c : SearchCriteria) : ParamKey → Option ℚ
  | .magnitude => c.max_magnitude
  | .depth => c.max_depth
  | .vs30 => c.max_vs30
  | .pga => c.max_pga
  | .pgv => c.max_pgv
  | .pgd => c.max_pgd
  | _ => none

/-- `getattr(self, f"target_{key}", None)` (there is no
`target_mechanism` field). -/
def SearchCriteria.targetAttr (c : SearchCriteria) : ParamKey → Option ℚ
  | .magnitude => c.target_magnitude
  | .rjb => c.target_rjb
  | .rrup => c.target_rrup
  | .repi => c.target_repi
  | .vs30 => c.target_vs30
  | .pga => c.target_pga
  | .pgv => c.target_pgv
  | .pgd => c.target_pgd
  | .t90 => c.target_t90
  | .arias => c.target_arias
  | .depth => c.target_depth
  | .mechanism => none

/-- `SearchCriteria.get_effective_target`: explicit target if present,
else midpoint of `[min,max]` if both present, else whichever bound is
present, else `None`. -/
def SearchCriteria.get_effective_target (c : SearchCriteria)
    (k : ParamKey) : Option ℚ :=
  match c.targetAttr k with
  | some t => some t
  | none =>
      match c.minAttr k, c.maxAttr k with
      | some mn, some mx => some ((mn + mx) / 2)
      | some mn, none => some mn
      | none, some mx => some mx
      | none, none => none

/-- `SearchCriteria.get_sigma`: `(max-min)/strictness` when a range is
present with positive spread, `1.0` when the spread is not positive;
without a range, `target * 0.1` when the effective target is truthy
(non-`None`, nonzero) and `1.0` otherwise. -/
def SearchCriteria.get_sigma (c : SearchCriteria) (k : ParamKey) : ℚ :=
  match c.minAttr k, c.maxAttr k with
  | some mn, some mx =>
      let diff := mx - mn
      if 0 < diff then diff / sigmaStrictness k else 1
  | _, _ =>
      match c.get_effective_target k with
      | some t => if t = 0 then 1 else t * (1/10)
      | none => 1

end SelSvc

namespace SelSvc

/-! ## Criteria validators (`@model_validator` methods, Selection.py) -/

/-- A Python exception raised inside a validator.  Pydantic turns a
`ValueError` into a validation error; any other exception type (such as
`TypeError`) propagates out of model construction as-is. -/
inductive PyErr where
  | typeError (msg : String)
  | valueError (msg : String)
deriving DecidableEq, Repr

/-- Python `a > b` on optional floats: comparing `None` with anything
raises `TypeError`. -/
def pyGtOpt : Option ℚ → Option ℚ → Except PyErr Bool
  | some a, some b => .ok (decide (b < a))
  | _, _ => .error (.typeError "not supported between instances of NoneType")

/-- Python `a < b` on optional floats; see `pyGtOpt`. -/
def pyLtOpt : Option ℚ → Option ℚ → Except PyErr Bool
  | some a, some b => .ok (decide (a < b))
  | _, _ => .error (.typeError "not supported between instances of NoneType")

/-- `check_magnitudes`: compares `self.min_magnitude > self.max_magnitude`
and then `self.min_magnitude < 0 or self.max_magnitude > 10` without any
`None` guard, so omitted magnitude bounds hit the `None` comparison. -/
def SearchCriteria.check_magnitudes (c : SearchCriteria) :
    Except PyErr Unit := do
  let b1 ← pyGtOpt c.min_magnitude c.max_magnitude
  if b1 then
    throw (.valueError "Min magnitude cannot exceed max magnitude")
  let b2 ← pyLtOpt c.min_magnitude (some 0)
  if b2 then
    throw (.valueError "Magnitudes must lie in 0-10")
  let b3 ← pyGtOpt c.max_magnitude (some 10)
  if b3 then
    throw (.valueError "Magnitudes must lie in 0-10")
  pure ()

/-- `check_vs30`: only checked when both bounds are present. -/
def SearchCriteria.check_vs30 (c : SearchCriteria) : Except PyErr Unit :=
  match c.min_vs30, c.max_vs30 with
  | some mn, some mx =>
      if mx < mn then .error (.valueError "Min VS30 cannot exceed max VS30")
      else if mn < 0 ∨ 3000 < mx then
        .error (.valueError "VS30 must lie in 0-3000")
      else .ok ()
  | _, _ => .ok ()

/-- `MECHANISM_MAP.values()` (Config.py). -/
def validMechanisms : List String :=
  ["StrikeSlip", "Normal", "Reverse", "Reverse/Oblique",
   "Normal/Oblique", "Oblique", "Unknown"]

/-- `check_mechanisms`: every requested mechanism label must be one of
the registry labels. -/
def SearchCriteria.check_mechanisms (c : SearchCriteria) :
    Except PyErr Unit :=
  if c.mechanisms.all (fun m => validMechanisms.contains m) then .ok ()
  else .error (.valueError "Invalid mechanism")

/-- One `(min_field, max_field)` round of `check_distances`: `min > max`
is rejected when both are present, and a present negative `min` is
rejected. -/
def checkDistancePair (mn mx : Option ℚ) : Except PyErr Unit :=
  match mn, mx with
  | some a, some b =>
      if b < a then .error (.valueError "min distance cannot exceed max")
      else if a < 0 then .error (.valueError "min distance cannot be negative")
      else .ok ()
  | some a, none =>
      if a < 0 then .error (.valueError "min distance cannot be negative")
      else .ok ()
  | none, _ => .ok ()

/-- `check_distances` over the four distance field pairs, in source
order. -/
def SearchCriteria.check_distances (c : SearchCriteria) :
    Except PyErr Unit := do
  checkDistancePair c.min_Repi c.max_Repi
  checkDistancePair c.min_Rhyp c.max_Rhyp
  checkDistancePair c.min_Rjb c.max_Rjb
  checkDistancePair c.min_Rrup c.max_Rrup

/-- `check_depths`: only checked when both bounds are present. -/
def SearchCriteria.check_depths (c : SearchCriteria) : Except PyErr Unit :=
  match c.min_depth, c.max_depth with
  | some mn, some mx =>
      if mx < mn then
        .error (.valueError "Min depth cannot exceed max depth")
      else if mn < 0 ∨ 700 < mx then
        .error (.valueError "Depths must lie in 0-700 km")
      else .ok ()
  | _, _ => .ok ()

/-- One block of `check_pga_pgv_pgd`, with its upper domain limit. -/
def checkPeakPair (mn mx : Option ℚ) (lim : ℚ) : Except PyErr Unit :=
  match mn, mx with
  | some a, some b =>
      if b < a then .error (.valueError "min peak cannot exceed max")
      else if a < 0 ∨ lim < b then
        .error (.valueError "peak value out of domain")
      else .ok ()
  | _, _ => .ok ()

/-- `check_pga_pgv_pgd`: PGA in 0-10000, PGV in 0-1000, PGD in 0-1000,
each only when both bounds are present. -/
def SearchCriteria.check_pga_pgv_pgd (c : SearchCriteria) :
    Except PyErr Unit := do
  checkPeakPair c.min_pga c.max_pga 10000
  checkPeakPair c.min_pgv c.max_pgv 1000
  checkPeakPair c.min_pgd c.max_pgd 1000

/-- The model validators on the modelled fields, in source order
(`check_dates`, `check_bbox` and `check_circle_search` constrain only the
omitted date/geographic fields and are not modelled). -/
def SearchCriteria.runValidators (c : SearchCriteria) : Except PyErr Unit := do
  c.check_magnitudes
  c.check_vs30
  c.check_mechanisms
  c.check_distances
  c.check_depths
  c.check_pga_pgv_pgd

/-- Construction of the pydantic model succeeds on the modelled fields:
no validator raises. -/
def SearchCriteria.validated (c : SearchCriteria) : Bool :=
  match c.runValidators with
  | .ok _ => true
  | .error _ => false

end SelSvc

namespace SelSvc

/-! ## Claims C7 (sigma) and C9 (magnitude validator) -/

theorem sigmaStrictness_pos (k : ParamKey) : 0 < sigmaStrictness k := by
  cases k <;> norm_num [sigmaStrictness]

/-- `get_sigma` never returns zero, for any criteria (validated or not):
the range branch returns a positive quotient or `1.0`, and the fallback
returns `1.0` exactly when the effective target is `None` or zero. -/
theorem get_sigma_ne_zero (c : SearchCriteria) (k : ParamKey) :
    c.get_sigma k ≠ 0 := by
  unfold SearchCriteria.get_sigma
  cases hmn : c.minAttr k with
  | some mn =>
      cases hmx : c.maxAttr k with
      | some mx =>
          simp only []
          split_ifs with h
          · exact ne_of_gt (div_pos h (sigmaStrictness_pos k))
          · norm_num
      | none =>
          simp only []
          cases ht : c.get_effective_target k with
          | some t =>
              show (if t = 0 then 1 else t * (1/10)) ≠ 0
              split_ifs with h
              · norm_num
              · exact mul_ne_zero h (by norm_num)
          | none => norm_num
  | none =>
      simp only []
      cases ht : c.get_effective_target k with
      | some t =>
          show (if t = 0 then 1 else t * (1/10)) ≠ 0
          split_ifs with h
          · norm_num
          · exact mul_ne_zero h (by norm_num)
      | none => norm_num

/-- C7 (amended): for every scorable key and validated criteria the
effective sigma is characterised as: `(max-min)/strictness > 0` when a
range with `max > min` is found by the (case-sensitive) attribute lookup,
`1.0` when the found range is degenerate, and otherwise the fallback
`target/10` for a nonzero effective target and `1.0` for an absent or
zero target.  It is never zero — so the Gaussian's `2·sigma²` denominator
is positive and never divides by zero — and it is strictly positive in
every case except a negative no-range effective target, where it equals
`target/10 < 0` (see the counterexample; the original claim's "strictly
positive" is false there). -/
theorem c7_sigma_characterisation (c : SearchCriteria)
    (hc : c.validated = true) (k : ParamKey) :
    c.get_sigma k ≠ 0 ∧
    0 < 2 * c.get_sigma k * c.get_sigma k ∧
    (∀ mn mx, c.minAttr k = some mn → c.maxAttr k = some mx →
      (mn < mx → c.get_sigma k = (mx - mn) / sigmaStrictness k) ∧
      (mx ≤ mn → c.get_sigma k = 1) ∧ 0 < c.get_sigma k) ∧
    (((c.minAttr k).isNone ∨ (c.maxAttr k).isNone) →
      (c.get_effective_target k = none → c.get_sigma k = 1) ∧
      (∀ t, c.get_effective_target k = some t →
        (t = 0 → c.get_sigma k = 1) ∧
        (t ≠ 0 → c.get_sigma k = t / 10) ∧
        (0 ≤ t → 0 < c.get_sigma k))) := by
  have hne := get_sigma_ne_zero c k
  refine ⟨hne, ?_, ?_, ?_⟩
  · have h2 : 0 < c.get_sigma k * c.get_sigma k := mul_self_pos.mpr hne
    nlinarith
  · intro mn mx hmn hmx
    have hval : c.get_sigma k =
        (if 0 < mx - mn then (mx - mn) / sigmaStrictness k else 1) := by
      unfold SearchCriteria.get_sigma
      rw [hmn, hmx]
    refine ⟨?_, ?_, ?_⟩
    · intro hlt
      rw [hval, if_pos (by linarith)]
    · intro hle
      rw [hval, if_neg (by linarith)]
    · rw [hval]
      split_ifs with h
      · exact div_pos h (sigmaStrictness_pos k)
      · norm_num
  · intro hnone
    have hval : c.get_sigma k =
        (match c.get_effective_target k with
         | some t => if t = 0 then 1 else t * (1/10)
         | none => 1) := by
      unfold SearchCriteria.get_sigma
      rcases hnone with h | h
      · rcases Option.isNone_iff_eq_none.mp h with h2
        rw [h2]
      · rcases Option.isNone_iff_eq_none.mp h with h2
        cases hmn : c.minAttr k with
        | some mn => rw [h2]
        | none => rfl
    refine ⟨?_, ?_⟩
    · intro ht
      rw [hval, ht]
    · intro t ht
      rw [hval, ht]
      refine ⟨?_, ?_, ?_⟩
      · intro h0
        simp [h0]
      · intro h0
        show (if t = 0 then 1 else t * (1/10)) = t / 10
        rw [if_neg h0]
        ring
      · intro h0
        show (0:ℚ) < (if t = 0 then 1 else t * (1/10))
        split_ifs with h1
        · norm_num
        · have : 0 < t := lt_of_le_of_ne h0 (Ne.symm h1)
          positivity

/-- Validated criteria with a negative explicit `target_t90` — every
modelled validator passes (none constrains explicit targets). -/
def c7bad : SearchCriteria :=
  { min_magnitude := some 5, max_magnitude := some 7,
    target_t90 := some (-3) }

/-- C7 counterexample: `c7bad` is validated, yet the effective sigma for
the scorable key `t90` is `-3/10 < 0`, refuting the claimed strict
positivity of `get_sigma` on validated criteria. -/
theorem c7_counterexample :
    c7bad.validated = true ∧
    c7bad.get_sigma ParamKey.t90 = -(3/10) ∧
    ¬ (0 < c7bad.get_sigma ParamKey.t90) := by
  refine ⟨by decide, by norm_num [c7bad, SearchCriteria.get_sigma,
    SearchCriteria.get_effective_target, SearchCriteria.minAttr,
    SearchCriteria.maxAttr, SearchCriteria.targetAttr, sigmaStrictness], ?_⟩
  norm_num [c7bad, SearchCriteria.get_sigma,
    SearchCriteria.get_effective_target, SearchCriteria.minAttr,
    SearchCriteria.maxAttr, SearchCriteria.targetAttr, sigmaStrictness]

/-- The degenerate-range scenario: `min_magnitude = max_magnitude = 6`. -/
def c7deg : SearchCriteria :=
  { min_magnitude := some 6, max_magnitude := some 6 }

/-- Witness for C7 (amended) at the spec's degenerate-range scenario:
`min_magnitude = max_magnitude = 6.0` gives effective target `6.0`,
sigma `1.0` (the degenerate-range floor), nonzero sigma, positive
`2·sigma²`. -/
theorem c7_witness :
    c7deg.validated = true ∧
    c7deg.get_effective_target ParamKey.magnitude = some 6 ∧
    c7deg.get_sigma ParamKey.magnitude = 1 ∧
    c7deg.get_sigma ParamKey.magnitude ≠ 0 ∧
    0 < 2 * c7deg.get_sigma ParamKey.magnitude *
        c7deg.get_sigma ParamKey.magnitude := by
  have hv : c7deg.validated = true := by decide
  have h := c7_sigma_characterisation c7deg hv ParamKey.magnitude
  refine ⟨hv, ?_, ?_, h.1, h.2.1⟩
  · show some ((6 + 6) / 2) = some 6
    norm_num
  · exact ((h.2.2.1 6 6 rfl rfl).2.1) (by norm_num)

/-- Criteria with every optional field omitted (so magnitude bounds are
`None`, as pydantic defaults them). -/
def c9crit : SearchCriteria := {}

/-- C9: constructing criteria with the magnitude bounds omitted does not
succeed — `check_magnitudes` evaluates `None > None`, which raises
`TypeError` (propagating out of pydantic as a non-validation error), so
the model is rejected on a perfectly consistent input.  This evaluates
the code at the failing input of the code-bug report. -/
theorem c9_omitted_magnitudes_type_error :
    c9crit.check_magnitudes =
      .error (.typeError "not supported between instances of NoneType") ∧
    c9crit.validated = false ∧
    (∀ e, c9crit.runValidators = .error e → ∀ m, e ≠ .valueError m) := by
  refine ⟨rfl, rfl, ?_⟩
  intro e he m hcontra
  have hrv : c9crit.runValidators =
      Except.error
        (PyErr.typeError "not supported between instances of NoneType") := rfl
  rw [hrv] at he
  have he2 :
      PyErr.typeError "not supported between instances of NoneType" = e := by
    injection he
  rw [← he2] at hcontra
  exact PyErr.noConfusion hcontra

end SelSvc

namespace SelSvc

/-! ## Scoring engine (`BaseSelectionStrategy._calculate_total_score`) -/

/-- `_gaussian_score(value, target, sigma)`: `0.0` for a missing/NaN
value, else `exp(-(value-target)² / (2·sigma²))`.  `expNeg u` stands for
`math.exp(-u)`; subtracting a string from a float raises `TypeError` in
Python, modelled as an error. -/
def gaussianScore (expNeg : ℚ → ℚ) (value : Value) (target sigma : ℚ) :
    Except PyErr ℚ :=
  match value with
  | .null => .ok 0
  | .num v => .ok (expNeg ((v - target) * (v - target) / (2 * sigma * sigma)))
  | .str _ => .error (.typeError "unsupported operand types for -")

/-- Python truthiness of a cell (`if not record_val`). -/
def Value.truthy : Value → Bool
  | .null => false
  | .num q => q ≠ 0
  | .str s => s ≠ ""

/-- Python `str()` of a cell, as used by `_categorical_score`.  (Numeric
cells render differently in Python — `str(2.0) = "2.0"` — but a numeral
never exactly or partially matches a registry mechanism label, which is
the only use.) -/
def Value.pyStr : Value → String
  | .str s => s
  | .num q => toString q
  | .null => "nan"

/-- Helper for Python's `t in s` on strings: does `t` occur as a
contiguous run in `s` (as character lists)? -/
def subAux (t : List Char) : List Char → Bool
  | [] => t.isEmpty
  | c :: cs => t.isPrefixOf (c :: cs) || subAux t cs

/-- Python `t in s` for strings. -/
def strIn (t s : String) : Bool := subAux t.data s.data

/-- `_categorical_score(record_val, target_list)`: `1.0` on exact label
match, `0.7` on substring (partial) match, `0.0` otherwise or when the
cell is falsy / the target list empty. -/
def categoricalScore (recordVal : Value) (targetList : List String) : ℚ :=
  if ¬ recordVal.truthy ∨ targetList.isEmpty then 0
  else if targetList.any (fun t => t = recordVal.pyStr) then 1
  else if targetList.any (fun t => strIn t recordVal.pyStr) then 7/10
  else 0

/-- Step 1 of the scoring loop: does this key have a target?  For
`mechanism` the list of accepted labels must be non-empty; for the
numeric keys the effective target must be defined. -/
def keyTargetActive (c : SearchCriteria) (k : ParamKey) : Bool :=
  match k with
  | .mechanism => !c.mechanisms.isEmpty
  | _ => (c.get_effective_target k).isSome

/-- One iteration of the `for key, config in SCORING_MAP.items()` loop of
`_calculate_total_score`, threading the accumulator
`(total_weighted_score, total_active_weight)`: skip when the key has no
target, when the record lacks the column or holds NaN there, or when the
active weight is not positive; otherwise add `score·weight` and
`weight`. -/
def scoreStep (expNeg : ℚ → ℚ) (c : SearchCriteria) (record : Row)
    (acc : ℚ × ℚ) (k : ParamKey) : Except PyErr (ℚ × ℚ) :=
  if ¬ keyTargetActive c k then .ok acc
  else
    let col := colName k
    if ¬ record.hasCol col ∨ (record.get col).isna then .ok acc
    else
      let weight := c.weights.get_weight k
      if weight ≤ 0 then .ok acc
      else
        (match ptype k with
          | .numeric =>
              gaussianScore expNeg (record.get col)
                ((c.get_effective_target k).getD 0) (c.get_sigma k)
          | .categorical =>
              .ok (categoricalScore (record.get col) c.mechanisms)).map
          (fun score => (acc.1 + score * weight, acc.2 + weight))

/-- The `for key, config in SCORING_MAP.items()` loop of
`_calculate_total_score`: run `scoreStep` over the keys in order,
propagating a raised `TypeError` (which aborts the loop, as in Python). -/
def scoreFold (expNeg : ℚ → ℚ) (c : SearchCriteria) (record : Row) :
    List ParamKey → ℚ × ℚ → Except PyErr (ℚ × ℚ)
  | [], acc => .ok acc
  | k :: ks, acc =>
      match scoreStep expNeg c record acc k with
      | .error e => .error e
      | .ok acc2 => scoreFold expNeg c record ks acc2

/-- `_calculate_total_score`: fold the scoring step over the registry
keys and normalise to 0-100 (`0.0` when no parameter was active). -/
def calculate_total_score (expNeg : ℚ → ℚ) (c : SearchCriteria)
    (record : Row) : Except PyErr ℚ :=
  match scoreFold expNeg c record KEYS ((0 : ℚ), (0 : ℚ)) with
  | .error e => .error e
  | .ok acc => .ok (if acc.2 = 0 then 0 else acc.1 / acc.2 * 100)

/-- A parameter is *active* for a record exactly when the loop does not
skip it: it has a target, the record has a non-NaN value in its column,
and its weight is positive. -/
def keyActive (c : SearchCriteria) (record : Row) (k : ParamKey) : Bool :=
  keyTargetActive c k && record.hasCol (colName k) &&
    !(record.get (colName k)).isna && decide (0 < c.weights.get_weight k)

/-- The active parameters of a record, in registry order. -/
def activeKeys (c : SearchCriteria) (record : Row) : List ParamKey :=
  KEYS.filter (keyActive c record)

/-- The similarity contributed by one key (matching the loop body; `0`
in the unreachable null/string branches of the numeric case). -/
def keySimVal (expNeg : ℚ → ℚ) (c : SearchCriteria) (record : Row)
    (k : ParamKey) : ℚ :=
  match ptype k with
  | .numeric =>
      match record.get (colName k) with
      | .num v =>
          expNeg ((v - (c.get_effective_target k).getD 0) *
              (v - (c.get_effective_target k).getD 0) /
            (2 * c.get_sigma k * c.get_sigma k))
      | _ => 0
  | .categorical => categoricalScore (record.get (colName k)) c.mechanisms

/-- `Σ similarity_k · weight_k` over the active parameters. -/
def simWeightSum (expNeg : ℚ → ℚ) (c : SearchCriteria) (record : Row) : ℚ :=
  ((activeKeys c record).map
    (fun k => keySimVal expNeg c record k * c.weights.get_weight k)).sum

/-- `Σ weight_k` over the active parameters. -/
def weightSum (c : SearchCriteria) (record : Row) : ℚ :=
  ((activeKeys c record).map (fun k => c.weights.get_weight k)).sum

end SelSvc

namespace SelSvc

/-! ## Bounds and sum characterisation of the scoring engine -/

theorem categoricalScore_bounds (v : Value) (l : List String) :
    0 ≤ categoricalScore v l ∧ categoricalScore v l ≤ 1 := by
  unfold categoricalScore
  constructor <;> · split_ifs <;> norm_num

theorem two_sigma_sq_pos (c : SearchCriteria) (k : ParamKey) :
    0 < 2 * c.get_sigma k * c.get_sigma k := by
  have h := mul_self_pos.mpr (get_sigma_ne_zero c k)
  nlinarith

theorem keySimVal_bounds (expNeg : ℚ → ℚ)
    (hexp : ∀ x : ℚ, 0 ≤ x → 0 ≤ expNeg x ∧ expNeg x ≤ 1)
    (c : SearchCriteria) (record : Row) (k : ParamKey) :
    0 ≤ keySimVal expNeg c record k ∧ keySimVal expNeg c record k ≤ 1 := by
  unfold keySimVal
  cases hp : ptype k with
  | categorical => exact categoricalScore_bounds _ _
  | numeric =>
      cases hcell : record.get (colName k) with
      | null => norm_num
      | str s => norm_num
      | num v =>
          apply hexp
          apply div_nonneg (mul_self_nonneg _)
          exact le_of_lt (two_sigma_sq_pos c k)

theorem scoreStep_ok_cases (expNeg : ℚ → ℚ) (c : SearchCriteria)
    (record : Row) (acc acc2 : ℚ × ℚ) (k : ParamKey)
    (h : scoreStep expNeg c record acc k = .ok acc2) :
    (keyActive c record k = false ∧ acc2 = acc) ∨
    (keyActive c record k = true ∧
      acc2 = (acc.1 + keySimVal expNeg c record k * c.weights.get_weight k,
              acc.2 + c.weights.get_weight k)) := by
  unfold scoreStep at h
  by_cases h1 : keyTargetActive c k = true
  · rw [if_neg (by simp [h1])] at h
    by_cases h2 : (¬ record.hasCol (colName k) = true ∨
        (record.get (colName k)).isna = true)
    · rw [if_pos h2] at h
      left
      refine ⟨?_, (Except.ok.inj h).symm⟩
      rcases h2 with h2 | h2
      · have h2f : record.hasCol (colName k) = false := by simpa using h2
        simp [keyActive, h2f]
      · simp [keyActive, h2]
    · rw [if_neg h2] at h
      rcases not_or.mp h2 with ⟨h2a, h2b⟩
      have hcol : record.hasCol (colName k) = true := by
        by_contra hcontra
        exact h2a (by simpa using hcontra)
      have hna : (record.get (colName k)).isna = false := by
        simpa using h2b
      by_cases h3 : c.weights.get_weight k ≤ 0
      · rw [if_pos h3] at h
        left
        refine ⟨?_, (Except.ok.inj h).symm⟩
        simp [keyActive, not_lt.mpr h3]
      · rw [if_neg h3] at h
        right
        have hw : 0 < c.weights.get_weight k := not_le.mp h3
        have hact : keyActive c record k = true := by
          simp [keyActive, h1, hcol, hna, hw]
        refine ⟨hact, ?_⟩
        cases hp : ptype k with
        | categorical =>
            rw [hp] at h
            simp only [Except.map] at h
            have := Except.ok.inj h
            rw [← this]
            unfold keySimVal
            rw [hp]
        | numeric =>
            rw [hp] at h
            cases hcell : record.get (colName k) with
            | null =>
                rw [hcell] at hna
                simp [Value.isna] at hna
            | str s =>
                rw [hcell] at h
                simp only [gaussianScore, Except.map] at h
                exact absurd h (by simp)
            | num v =>
                rw [hcell] at h
                simp only [gaussianScore, Except.map] at h
                have := Except.ok.inj h
                rw [← this]
                unfold keySimVal
                rw [hp, hcell]
  · rw [if_pos (by simpa using h1)] at h
    left
    refine ⟨?_, (Except.ok.inj h).symm⟩
    have h1f : keyTargetActive c k = false := by simpa using h1
    simp [keyActive, h1f]

end SelSvc

namespace SelSvc

theorem scoreFold_sums (expNeg : ℚ → ℚ) (c : SearchCriteria) (record : Row) :
    ∀ (ks : List ParamKey) (acc res : ℚ × ℚ),
      scoreFold expNeg c record ks acc = .ok res →
      res.1 = acc.1 + ((ks.filter (keyActive c record)).map
          (fun k => keySimVal expNeg c record k *
            c.weights.get_weight k)).sum ∧
      res.2 = acc.2 + ((ks.filter (keyActive c record)).map
          (fun k => c.weights.get_weight k)).sum := by
  intro ks
  induction ks with
  | nil =>
      intro acc res h
      have : acc = res := Except.ok.inj h
      subst this
      simp
  | cons k ks ih =>
      intro acc res h
      unfold scoreFold at h
      cases hstep : scoreStep expNeg c record acc k with
      | error e =>
          rw [hstep] at h
          exact absurd h (by simp)
      | ok acc1 =>
          rw [hstep] at h
          have hsums := ih acc1 res h
          rcases scoreStep_ok_cases expNeg c record acc acc1 k hstep with
            ⟨hinact, heq⟩ | ⟨hact, heq⟩
          · subst heq
            rw [List.filter_cons_of_neg (by simp [hinact])]
            exact hsums
          · subst heq
            rw [List.filter_cons_of_pos (by simp [hact])]
            simp only [List.map_cons, List.sum_cons]
            constructor
            · rw [hsums.1]
              ring
            · rw [hsums.2]
              ring

theorem activeKeys_weight_pos (c : SearchCriteria) (record : Row)
    (k : ParamKey) (h : k ∈ activeKeys c record) :
    0 < c.weights.get_weight k := by
  have := List.of_mem_filter h
  have h4 : decide (0 < c.weights.get_weight k) = true := by
    simp only [keyActive, Bool.and_eq_true] at this
    exact this.2
  exact of_decide_eq_true h4

theorem weightSum_nonneg (c : SearchCriteria) (record : Row) :
    0 ≤ weightSum c record := by
  apply List.sum_nonneg
  intro x hx
  rcases List.mem_map.mp hx with ⟨k, hk, hxk⟩
  rw [← hxk]
  exact le_of_lt (activeKeys_weight_pos c record k hk)

theorem weightSum_pos (c : SearchCriteria) (record : Row)
    (h : activeKeys c record ≠ []) : 0 < weightSum c record := by
  apply List.sum_pos
  · intro x hx
    rcases List.mem_map.mp hx with ⟨k, hk, hxk⟩
    rw [← hxk]
    exact activeKeys_weight_pos c record k hk
  · simpa using h

theorem simWeightSum_nonneg (expNeg : ℚ → ℚ)
    (hexp : ∀ x : ℚ, 0 ≤ x → 0 ≤ expNeg x ∧ expNeg x ≤ 1)
    (c : SearchCriteria) (record : Row) :
    0 ≤ simWeightSum expNeg c record := by
  apply List.sum_nonneg
  intro x hx
  rcases List.mem_map.mp hx with ⟨k, hk, hxk⟩
  rw [← hxk]
  exact mul_nonneg (keySimVal_bounds expNeg hexp c record k).1
    (le_of_lt (activeKeys_weight_pos c record k hk))

theorem simWeightSum_le_weightSum (expNeg : ℚ → ℚ)
    (hexp : ∀ x : ℚ, 0 ≤ x → 0 ≤ expNeg x ∧ expNeg x ≤ 1)
    (c : SearchCriteria) (record : Row) :
    simWeightSum expNeg c record ≤ weightSum c record := by
  apply List.sum_le_sum
  intro k hk
  calc keySimVal expNeg c record k * c.weights.get_weight k
      ≤ 1 * c.weights.get_weight k := by
        apply mul_le_mul_of_nonneg_right
          (keySimVal_bounds expNeg hexp c record k).2
          (le_of_lt (activeKeys_weight_pos c record k hk))
    _ = c.weights.get_weight k := one_mul _

end SelSvc

namespace SelSvc

/-- C2: whenever the scoring engine computes a score for a record (its
numeric scoring columns hold numbers, so no `TypeError` is raised) under
any function `expNeg` with the `[0,1]`-on-nonnegatives property of
`x ↦ e^(-x)`, the score lies in `[0, 100]`; it is `0` when no parameter
is active for the record, and otherwise it equals the weight-normalised
sum `100·Σ(similarity_k·weight_k)/Σ(weight_k)` over the active
parameters.  (The bounds hold for any criteria; validation is assumed as
in the claim.) -/
theorem c2_score_bounds (expNeg : ℚ → ℚ)
    (hexp : ∀ x : ℚ, 0 ≤ x → 0 ≤ expNeg x ∧ expNeg x ≤ 1)
    (c : SearchCriteria) (hval : c.validated = true) (record : Row) (q : ℚ)
    (h : calculate_total_score expNeg c record = .ok q) :
    0 ≤ q ∧ q ≤ 100 ∧
    (activeKeys c record = [] → q = 0) ∧
    (activeKeys c record ≠ [] →
      q = 100 * simWeightSum expNeg c record / weightSum c record) := by
  unfold calculate_total_score at h
  cases hf : scoreFold expNeg c record KEYS ((0 : ℚ), (0 : ℚ)) with
  | error e =>
      rw [hf] at h
      exact absurd h (by simp)
  | ok acc =>
      rw [hf] at h
      have hq := Except.ok.inj h
      have hsums := scoreFold_sums expNeg c record KEYS ((0 : ℚ), (0 : ℚ))
        acc hf
      have h1 : acc.1 = simWeightSum expNeg c record := by
        rw [hsums.1]
        simp [simWeightSum, activeKeys]
      have h2 : acc.2 = weightSum c record := by
        rw [hsums.2]
        simp [weightSum, activeKeys]
      by_cases hz : acc.2 = 0
      · have hq0 : q = 0 := by rw [← hq, if_pos hz]
        have hwz : weightSum c record = 0 := by rw [← h2, hz]
        have hempty : activeKeys c record = [] := by
          by_contra hne
          exact absurd hwz (ne_of_gt (weightSum_pos c record hne))
        exact ⟨by rw [hq0], by rw [hq0]; norm_num, fun _ => hq0,
          fun hne => absurd hempty hne⟩
      · have hqe : q = acc.1 / acc.2 * 100 := by rw [← hq, if_neg hz]
        have hne : activeKeys c record ≠ [] := by
          intro hemp
          apply hz
          rw [h2, weightSum, hemp]
          simp
        have hwpos : 0 < weightSum c record := weightSum_pos c record hne
        refine ⟨?_, ?_, fun hemp => absurd hemp hne, fun _ => ?_⟩
        · rw [hqe, h1, h2]
          exact mul_nonneg
            (div_nonneg (simWeightSum_nonneg expNeg hexp c record)
              (le_of_lt hwpos)) (by norm_num)
        · rw [hqe, h1, h2]
          have hd : simWeightSum expNeg c record / weightSum c record ≤ 1 :=
            (div_le_one hwpos).mpr
              (simWeightSum_le_weightSum expNeg hexp c record)
          nlinarith
        · rw [hqe, h1, h2]
          ring

/-- A concrete stand-in for `x ↦ e^(-x)` used by witnesses: any function
with the `[0,1]`-on-nonnegatives property fits the theorems. -/
def expNeg0 : ℚ → ℚ := fun x => 1 / (1 + x)

theorem expNeg0_bounds : ∀ x : ℚ, 0 ≤ x → 0 ≤ expNeg0 x ∧ expNeg0 x ≤ 1 := by
  intro x hx
  unfold expNeg0
  constructor
  · exact div_nonneg zero_le_one (by linarith)
  · rw [div_le_one (by linarith)]
    linarith

/-- Criteria for the C2 witness: magnitude range `[6,7]` (effective
target `6.5`). -/
def c2crit : SearchCriteria :=
  { min_magnitude := some 6, max_magnitude := some 7 }

/-- Record for the C2 witness: magnitude exactly at the target. -/
def c2rec : Row := [("MAGNITUDE", Value.num (13/2))]

/-- Witness for C2 at a concrete input: an exact-match magnitude gives
score `100`, which is in `[0,100]` and equals the weight-normalised
sum. -/
theorem c2_witness :
    c2crit.validated = true ∧
    calculate_total_score expNeg0 c2crit c2rec = .ok 100 ∧
    0 ≤ (100 : ℚ) ∧ (100 : ℚ) ≤ 100 ∧
    (100 : ℚ) = 100 * simWeightSum expNeg0 c2crit c2rec /
      weightSum c2crit c2rec := by
  have hv : c2crit.validated = true := by decide
  have hcalc : calculate_total_score expNeg0 c2crit c2rec = .ok 100 := by
    norm_num [calculate_total_score, KEYS, scoreFold, scoreStep,
      keyTargetActive, SearchCriteria.get_effective_target,
      SearchCriteria.targetAttr, SearchCriteria.minAttr,
      SearchCriteria.maxAttr, SearchCriteria.get_sigma, sigmaStrictness,
      c2crit, c2rec, Row.hasCol, Row.get, Value.isna, gaussianScore,
      ptype, ScoringWeights.get_weight, colName, expNeg0, List.find?,
      Except.map]
  have hne : activeKeys c2crit c2rec ≠ [] := by decide
  have h := c2_score_bounds expNeg0 expNeg0_bounds c2crit hv c2rec 100 hcalc
  exact ⟨hv, hcalc, h.1, h.2.1, h.2.2.2 hne⟩

end SelSvc

namespace SelSvc

/-! ## Pipeline (`core/Pipeline.py`): result type, providers, fetch,
combine -/

/-- Modelled from the spec: the `Result` type of `ResultHandle.py`
(§4.1), which is not among the sources — a two-variant success/failure
container.  The `result_decorator` / `async_result_decorator` wrappers
convert an exception raised inside a stage into a failure `Result`;
stages are therefore modelled as functions into `Result` directly. -/
inductive Result (α : Type) (ε : Type) where
  | ok (value : α)
  | fail (error : ε)
deriving DecidableEq, Repr

/-- Modelled from the spec: the error kinds of `ErrorHandle.py` (§7),
which is not among the sources.  `providerError` carries the failing
source's name. -/
inductive PipelineError where
  | validationError (msg : String)
  | providerError (provider_name : String) (msg : String)
  | noDataError (msg : String)
  | strategyError (msg : String)
deriving DecidableEq, Repr

/-- Modelled from the spec: the string rendering of a `ProviderError`
(`ErrorHandle.py` absent from the sources; §4.3 records "source name +
error"), used in `[ERROR]` log lines. -/
def renderProviderError (name msg : String) : String := name ++ ": " ++ msg

/-- The outcome of one provider's fetch call: a returned success
`Result`, a returned failure `Result`, or a raised exception.  Per the
provider contract (`IProvider.fetch_data_* -> Result[DataFrame,
ProviderError]`; spec §6: a typed failure carrying the source identity),
a returned failure's `ProviderError` names the provider itself. -/
inductive FetchOutcome where
  | ok (df : DataFrame)
  | fail (msg : String)
  | raised (msg : String)
deriving DecidableEq

/-- Is the outcome a success (`result.success` in the source)? -/
def FetchOutcome.isOk : FetchOutcome → Bool
  | .ok _ => true
  | _ => false

/-- A data source adapter, modelled by its name and the outcomes of its
synchronous and asynchronous fetch calls (criteria mapping included: a
`map_criteria` raise is part of the `raised` outcome). -/
structure Provider where
  name : String
  fetchSync : FetchOutcome
  fetchAsync : FetchOutcome
deriving DecidableEq

/-- `PipelineContext` (Pipeline.py): the per-run context threaded
through the stages.  The strategy and criteria are parameters of the
stages that use them. -/
structure PipelineContext where
  providers : List Provider
  data : Option (List DataFrame) := none
  combined_df : Option DataFrame := none
  failed_providers : List String := []
  logs : List String := []
deriving DecidableEq

/-- The provider loop of `_fetch_data_sync`, accumulating
`(results, failed_providers, logs)` in order. -/
def fetchSyncLoop :
    List Provider → List DataFrame × List String × List String →
      List DataFrame × List String × List String
  | [], acc => acc
  | p :: ps, (results, failed, logs) =>
      match p.fetchSync with
      | .ok df =>
          fetchSyncLoop ps (results ++ [df], failed,
            logs ++ ["[OK] " ++ p.name ++ " success"])
      | .fail msg =>
          fetchSyncLoop ps (results, failed ++ [p.name],
            logs ++ ["[ERROR] " ++ p.name ++ ": " ++
              renderProviderError p.name msg])
      | .raised msg =>
          fetchSyncLoop ps (results, failed ++ [p.name],
            logs ++ ["[ERROR] " ++ p.name ++ ": " ++ msg])

/-- `_fetch_data_sync` (under `@result_decorator`: the `NoDataError`
raise becomes a failure `Result`). -/
def fetchDataSync (ctx : PipelineContext) :
    Result PipelineContext PipelineError :=
  if (fetchSyncLoop ctx.providers ([], [], [])).1.isEmpty then
    .fail (.noDataError "No data received from any provider")
  else
    .ok { ctx with
          data := some (fetchSyncLoop ctx.providers ([], [], [])).1,
          failed_providers := ctx.failed_providers ++
            (fetchSyncLoop ctx.providers ([], [], [])).2.1,
          logs := ctx.logs ++ (fetchSyncLoop ctx.providers ([], [], [])).2.2 }

/-- `context.providers[i].get_name()` (`i` is in range whenever the
source indexes with `len(successful_data)-1`, since successes never
outnumber providers). -/
def nameAt (providers : List Provider) (i : Nat) : String :=
  match providers.get? i with
  | some p => p.name
  | none => ""

/-- The result-processing loop of `_fetch_data_async` over the gathered
outcomes (in provider order, as `asyncio.gather` preserves task order).
Success logs index `context.providers[len(successful_data)-1]` — the
count of successes so far — not the provider that produced the result. -/
def fetchAsyncLoop (providers : List Provider) :
    List Provider → List DataFrame → List String → List String →
      List DataFrame × List String × List String
  | [], results, failed, logs => (results, failed, logs)
  | p :: ps, results, failed, logs =>
      match p.fetchAsync with
      | .ok df =>
          fetchAsyncLoop providers ps (results ++ [df]) failed
            (logs ++ ["[OK] " ++
              nameAt providers ((results ++ [df]).length - 1) ++ " success"])
      | .fail msg =>
          fetchAsyncLoop providers ps results (failed ++ [p.name])
            (logs ++ ["[ERROR] " ++ renderProviderError p.name msg])
      | .raised msg =>
          fetchAsyncLoop providers ps results (failed ++ [p.name])
            (logs ++ ["[ERROR] " ++ renderProviderError p.name msg])

/-- `_fetch_data_async` (under `@async_result_decorator`). -/
def fetchDataAsync (ctx : PipelineContext) :
    Result PipelineContext PipelineError :=
  if (fetchAsyncLoop ctx.providers ctx.providers [] [] []).1.isEmpty then
    .fail (.noDataError "No data received from any provider")
  else
    .ok { ctx with
          data := some (fetchAsyncLoop ctx.providers ctx.providers [] [] []).1,
          failed_providers := ctx.failed_providers ++
            (fetchAsyncLoop ctx.providers ctx.providers [] [] []).2.1,
          logs := ctx.logs ++
            (fetchAsyncLoop ctx.providers ctx.providers [] [] []).2.2 }

end SelSvc

namespace SelSvc

/-! ## Combine stage (`EarthquakePipeline._combine_data`) -/

/-- Is column `c` entirely null in `df` (`df[c].isna().all()`)? -/
def DataFrame.colAllNull (df : DataFrame) (c : String) : Bool :=
  df.rows.all (fun r => (r.get c).isna)

/-- `df.dropna(axis=1, how='all')`: drop the columns that are entirely
null; surviving rows are restricted to the surviving columns. -/
def DataFrame.dropAllNullCols (df : DataFrame) : DataFrame :=
  let cols2 := df.cols.filter (fun c => ¬ df.colAllNull c)
  ⟨cols2, df.rows.map (fun r => r.restrict cols2)⟩

/-- Union of column lists in order of first appearance, as `pd.concat`
builds the combined column set. -/
def unionCols (css : List (List String)) : List String :=
  css.foldl (fun acc cs => acc ++ cs.filter (fun c => ¬ acc.contains c)) []

/-- `pd.concat(dfs, ignore_index=True)`: rows stacked in source order
and re-indexed; the column set is the union; a cell absent from a row's
source frame reads as null (`NaN`). -/
def concatIgnoreIndex (dfs : List DataFrame) : DataFrame :=
  let cols := unionCols (dfs.map DataFrame.cols)
  ⟨cols,
   (dfs.map (fun df =>
     df.rows.map (fun r => (r.restrict df.cols).restrict cols))).flatten⟩

/-- `df.fillna(v)`: replace every null cell, in every column, by `v`. -/
def DataFrame.fillnaAll (df : DataFrame) (v : Value) : DataFrame :=
  ⟨df.cols, df.rows.map (fun r =>
    df.cols.map (fun c => (c, if (r.get c).isna then v else r.get c)))⟩

/-- `df.select_dtypes(include=['object']).columns`: in this cell model a
column has `object` dtype exactly when it holds a text value. -/
def DataFrame.objectCols (df : DataFrame) : List String :=
  df.cols.filter (fun c => df.rows.any (fun r => (r.get c).isStr))

/-- `df[object_cols] = df[object_cols].fillna("")`: fill the nulls of the
`object`-dtype columns with the empty string. -/
def DataFrame.fillObjectEmpty (df : DataFrame) : DataFrame :=
  ⟨df.cols, df.rows.map (fun r =>
    df.cols.map (fun c =>
      (c, if df.objectCols.contains c ∧ (r.get c).isna then Value.str ""
          else r.get c)))⟩

/-- `_combine_data`: per-source all-null-column drop, concatenation,
combined all-null-column drop, `fillna(0)` over the whole frame, then
`fillna("")` over the `object` columns (a no-op, because `fillna(0)`
already filled every column — the source's comments intend `0` only for
numeric columns). -/
def combineData (ctx : PipelineContext) :
    Result PipelineContext PipelineError :=
  match ctx.data with
  | none => .fail (.noDataError "No data to combine")
  | some dfs =>
      if dfs.isEmpty then .fail (.noDataError "No data to combine")
      else
        let valid := (dfs.filter (fun df =>
          !df.isEmptyDF && decide (0 < df.dropAllNullCols.cols.length))).map
            DataFrame.dropAllNullCols
        if valid.isEmpty then
          .fail (.noDataError "No valid dataframes to combine")
        else
          let combined :=
            (((concatIgnoreIndex valid).dropAllNullCols).fillnaAll
              (Value.num 0)).fillObjectEmpty
          .ok { ctx with
                combined_df := some combined,
                logs := ctx.logs ++
                  ["Combined " ++ toString valid.length ++
                    " datasets, total " ++ toString combined.rows.length ++
                    " records"] }

end SelSvc

namespace SelSvc

/-! ## Fetch stage characterisation (claim C3) -/

/-- The dataframe a provider's sync fetch contributes, if any. -/
def syncDf (p : Provider) : Option DataFrame :=
  match p.fetchSync with
  | .ok df => some df
  | _ => none

/-- The dataframe a provider's async fetch contributes, if any. -/
def asyncDf (p : Provider) : Option DataFrame :=
  match p.fetchAsync with
  | .ok df => some df
  | _ => none

theorem fetchSyncLoop_data :
    ∀ (ps : List Provider) (rs : List DataFrame) (fl lg : List String),
      (fetchSyncLoop ps (rs, fl, lg)).1 = rs ++ ps.filterMap syncDf := by
  intro ps
  induction ps with
  | nil => intro rs fl lg; simp [fetchSyncLoop]
  | cons p ps ih =>
      intro rs fl lg
      cases hf : p.fetchSync with
      | ok df => simp [fetchSyncLoop, hf, ih, List.filterMap_cons, syncDf]
      | fail m => simp [fetchSyncLoop, hf, ih, List.filterMap_cons, syncDf]
      | raised m => simp [fetchSyncLoop, hf, ih, List.filterMap_cons, syncDf]

theorem fetchSyncLoop_failed :
    ∀ (ps : List Provider) (rs : List DataFrame) (fl lg : List String),
      (fetchSyncLoop ps (rs, fl, lg)).2.1 =
        fl ++ (ps.filter (fun p => !p.fetchSync.isOk)).map Provider.name := by
  intro ps
  induction ps with
  | nil => intro rs fl lg; simp [fetchSyncLoop]
  | cons p ps ih =>
      intro rs fl lg
      cases hf : p.fetchSync with
      | ok df =>
          simp [fetchSyncLoop, hf, ih, List.filter_cons, FetchOutcome.isOk]
      | fail m =>
          simp [fetchSyncLoop, hf, ih, List.filter_cons, FetchOutcome.isOk]
      | raised m =>
          simp [fetchSyncLoop, hf, ih, List.filter_cons, FetchOutcome.isOk]

theorem fetchAsyncLoop_data (providers : List Provider) :
    ∀ (ps : List Provider) (rs : List DataFrame) (fl lg : List String),
      (fetchAsyncLoop providers ps rs fl lg).1 = rs ++ ps.filterMap asyncDf := by
  intro ps
  induction ps with
  | nil => intro rs fl lg; simp [fetchAsyncLoop]
  | cons p ps ih =>
      intro rs fl lg
      cases hf : p.fetchAsync with
      | ok df => simp [fetchAsyncLoop, hf, ih, List.filterMap_cons, asyncDf]
      | fail m => simp [fetchAsyncLoop, hf, ih, List.filterMap_cons, asyncDf]
      | raised m => simp [fetchAsyncLoop, hf, ih, List.filterMap_cons, asyncDf]

theorem fetchAsyncLoop_failed (providers : List Provider) :
    ∀ (ps : List Provider) (rs : List DataFrame) (fl lg : List String),
      (fetchAsyncLoop providers ps rs fl lg).2.1 =
        fl ++ (ps.filter (fun p => !p.fetchAsync.isOk)).map Provider.name := by
  intro ps
  induction ps with
  | nil => intro rs fl lg; simp [fetchAsyncLoop]
  | cons p ps ih =>
      intro rs fl lg
      cases hf : p.fetchAsync with
      | ok df =>
          simp [fetchAsyncLoop, hf, ih, List.filter_cons, FetchOutcome.isOk]
      | fail m =>
          simp [fetchAsyncLoop, hf, ih, List.filter_cons, FetchOutcome.isOk]
      | raised m =>
          simp [fetchAsyncLoop, hf, ih, List.filter_cons, FetchOutcome.isOk]

theorem syncDf_none_iff (p : Provider) :
    syncDf p = none ↔ p.fetchSync.isOk = false := by
  cases hf : p.fetchSync <;> simp [syncDf, hf, FetchOutcome.isOk]

theorem asyncDf_none_iff (p : Provider) :
    asyncDf p = none ↔ p.fetchAsync.isOk = false := by
  cases hf : p.fetchAsync <;> simp [asyncDf, hf, FetchOutcome.isOk]

end SelSvc

namespace SelSvc

theorem syncDfs_nil_iff (ps : List Provider) :
    ps.filterMap syncDf = [] ↔ ∀ p ∈ ps, p.fetchSync.isOk = false := by
  rw [List.filterMap_eq_nil]
  constructor
  · intro h p hp
    exact (syncDf_none_iff p).mp (h p hp)
  · intro h p hp
    exact (syncDf_none_iff p).mpr (h p hp)

theorem asyncDfs_nil_iff (ps : List Provider) :
    ps.filterMap asyncDf = [] ↔ ∀ p ∈ ps, p.fetchAsync.isOk = false := by
  rw [List.filterMap_eq_nil]
  constructor
  · intro h p hp
    exact (asyncDf_none_iff p).mp (h p hp)
  · intro h p hp
    exact (asyncDf_none_iff p).mpr (h p hp)

theorem fetchDataSync_spec (ctx : PipelineContext) :
    (ctx.providers.filterMap syncDf = [] →
      fetchDataSync ctx =
        .fail (.noDataError "No data received from any provider")) ∧
    (ctx.providers.filterMap syncDf ≠ [] →
      fetchDataSync ctx = .ok { ctx with
        data := some (ctx.providers.filterMap syncDf),
        failed_providers := ctx.failed_providers ++
          (ctx.providers.filter (fun p => !p.fetchSync.isOk)).map
            Provider.name,
        logs := ctx.logs ++
          (fetchSyncLoop ctx.providers ([], [], [])).2.2 }) := by
  have hd := fetchSyncLoop_data ctx.providers [] [] []
  have hf := fetchSyncLoop_failed ctx.providers [] [] []
  simp only [List.nil_append] at hd hf
  constructor
  · intro hnil
    unfold fetchDataSync
    rw [hd, hnil]
    simp
  · intro hnonnil
    unfold fetchDataSync
    rw [hd, hf, if_neg (by simpa [List.isEmpty_iff] using hnonnil)]

theorem fetchDataAsync_spec (ctx : PipelineContext) :
    (ctx.providers.filterMap asyncDf = [] →
      fetchDataAsync ctx =
        .fail (.noDataError "No data received from any provider")) ∧
    (ctx.providers.filterMap asyncDf ≠ [] →
      fetchDataAsync ctx = .ok { ctx with
        data := some (ctx.providers.filterMap asyncDf),
        failed_providers := ctx.failed_providers ++
          (ctx.providers.filter (fun p => !p.fetchAsync.isOk)).map
            Provider.name,
        logs := ctx.logs ++
          (fetchAsyncLoop ctx.providers ctx.providers [] [] []).2.2 }) := by
  have hd := fetchAsyncLoop_data ctx.providers ctx.providers [] [] []
  have hf := fetchAsyncLoop_failed ctx.providers ctx.providers [] [] []
  simp only [List.nil_append] at hd hf
  constructor
  · intro hnil
    unfold fetchDataAsync
    rw [hd, hnil]
    simp
  · intro hnonnil
    unfold fetchDataAsync
    rw [hd, hf, if_neg (by simpa [List.isEmpty_iff] using hnonnil)]

/-- The three claim-C3 properties of one fetch stage, derived from its
two-branch specification. -/
theorem fetch_stage_claims (ctx : PipelineContext)
    (F : Provider → FetchOutcome)
    (stage : Result PipelineContext PipelineError)
    (okList : List DataFrame) (lg : List String)
    (hok_iff : okList = [] ↔ ∀ p ∈ ctx.providers, (F p).isOk = false)
    (hfailB : okList = [] →
      stage = .fail (.noDataError "No data received from any provider"))
    (hokB : okList ≠ [] → stage = .ok { ctx with
        data := some okList,
        failed_providers := ctx.failed_providers ++
          (ctx.providers.filter (fun p => !(F p).isOk)).map Provider.name,
        logs := ctx.logs ++ lg }) :
    ((∃ ctx2, stage = Result.ok ctx2) ↔
      ∃ p ∈ ctx.providers, (F p).isOk = true) ∧
    ((∃ msg, stage = Result.fail (PipelineError.noDataError msg)) ↔
      ∀ p ∈ ctx.providers, (F p).isOk = false) ∧
    (∀ ctx2, stage = Result.ok ctx2 →
      ctx2.failed_providers = ctx.failed_providers ++
        (ctx.providers.filter (fun p => !(F p).isOk)).map Provider.name) := by
  by_cases hcase : okList = []
  · have heq := hfailB hcase
    refine ⟨?_, ?_, ?_⟩
    · rw [heq]
      constructor
      · rintro ⟨ctx2, hc⟩
        exact absurd hc (by simp)
      · rintro ⟨p, hp, hok⟩
        have := (hok_iff.mp hcase) p hp
        rw [hok] at this
        exact Bool.noConfusion this
    · rw [heq]
      constructor
      · intro _
        exact hok_iff.mp hcase
      · intro _
        exact ⟨"No data received from any provider", rfl⟩
    · intro ctx2 hc
      rw [heq] at hc
      exact absurd hc (by simp)
  · have heq := hokB hcase
    refine ⟨?_, ?_, ?_⟩
    · rw [heq]
      constructor
      · intro _
        by_contra hnone
        push_neg at hnone
        refine hcase (hok_iff.mpr ?_)
        intro p hp
        have := hnone p hp
        cases hval : (F p).isOk
        · rfl
        · exact absurd hval this
      · intro _
        exact ⟨_, rfl⟩
    · rw [heq]
      constructor
      · rintro ⟨msg, hc⟩
        exact absurd hc (by simp)
      · intro hall
        exact absurd (hok_iff.mpr hall) hcase
    · intro ctx2 hc
      rw [heq] at hc
      have := Result.ok.inj hc
      rw [← this]

/-- C3: for every non-empty provider list, the fetch stage — in both its
synchronous and asynchronous forms — succeeds iff at least one
provider's fetch returns data, fails with `NoDataError` iff every
provider fails, and records each failing provider's name (in provider
order) in the context's failed-provider list; individual failures never
abort the run. -/
theorem c3_fetch_partial_failure_tolerance (ctx : PipelineContext)
    (hne : ctx.providers ≠ []) :
    (((∃ ctx2, fetchDataSync ctx = Result.ok ctx2) ↔
      ∃ p ∈ ctx.providers, p.fetchSync.isOk = true) ∧
    ((∃ msg, fetchDataSync ctx =
        Result.fail (PipelineError.noDataError msg)) ↔
      ∀ p ∈ ctx.providers, p.fetchSync.isOk = false) ∧
    (∀ ctx2, fetchDataSync ctx = Result.ok ctx2 →
      ctx2.failed_providers = ctx.failed_providers ++
        (ctx.providers.filter (fun p => !p.fetchSync.isOk)).map
          Provider.name)) ∧
    (((∃ ctx2, fetchDataAsync ctx = Result.ok ctx2) ↔
      ∃ p ∈ ctx.providers, p.fetchAsync.isOk = true) ∧
    ((∃ msg, fetchDataAsync ctx =
        Result.fail (PipelineError.noDataError msg)) ↔
      ∀ p ∈ ctx.providers, p.fetchAsync.isOk = false) ∧
    (∀ ctx2, fetchDataAsync ctx = Result.ok ctx2 →
      ctx2.failed_providers = ctx.failed_providers ++
        (ctx.providers.filter (fun p => !p.fetchAsync.isOk)).map
          Provider.name)) := by
  constructor
  · exact fetch_stage_claims ctx Provider.fetchSync (fetchDataSync ctx)
      (ctx.providers.filterMap syncDf)
      (fetchSyncLoop ctx.providers ([], [], [])).2.2
      (syncDfs_nil_iff ctx.providers)
      (fetchDataSync_spec ctx).1 (fetchDataSync_spec ctx).2
  · exact fetch_stage_claims ctx Provider.fetchAsync (fetchDataAsync ctx)
      (ctx.providers.filterMap asyncDf)
      (fetchAsyncLoop ctx.providers ctx.providers [] [] []).2.2
      (asyncDfs_nil_iff ctx.providers)
      (fetchDataAsync_spec ctx).1 (fetchDataAsync_spec ctx).2

end SelSvc

namespace SelSvc

/-! ## Concrete fetch/combine instances (claims C3, C8, C4, C5) -/

/-- A one-record table returned by the successful provider. -/
def c3dfB : DataFrame := ⟨["MAGNITUDE"], [[("MAGNITUDE", Value.num 7)]]⟩

/-- Provider `A`, whose fetch fails (both modes). -/
def c3pA : Provider := ⟨"A", FetchOutcome.fail "boom", FetchOutcome.fail "boom"⟩

/-- Provider `B`, whose fetch returns data (both modes). -/
def c3pB : Provider := ⟨"B", FetchOutcome.ok c3dfB, FetchOutcome.ok c3dfB⟩

/-- Two-provider context: `A` fails, `B` succeeds. -/
def c3ctx : PipelineContext := { providers := [c3pA, c3pB] }

/-- The context the sync fetch stage produces on `c3ctx`. -/
def c3outS : PipelineContext :=
  { providers := [c3pA, c3pB], data := some [c3dfB],
    failed_providers := ["A"],
    logs := ["[ERROR] A: A: boom", "[OK] B success"] }

/-- Witness for C3 at a concrete input: with `A` failing and `B`
succeeding, the sync fetch succeeds and the failed-provider list names
exactly the failing provider. -/
theorem c3_witness :
    fetchDataSync c3ctx = Result.ok c3outS ∧
    c3outS.failed_providers = c3ctx.failed_providers ++
      ((c3ctx.providers.filter (fun p => !p.fetchSync.isOk)).map
        Provider.name) := by
  have h := c3_fetch_partial_failure_tolerance c3ctx (by decide)
  have hs : fetchDataSync c3ctx = Result.ok c3outS := by decide
  exact ⟨hs, h.1.2.2 c3outS hs⟩

/-- The C8 one-record table (shared by the C8 providers). -/
def c8df : DataFrame := ⟨["MAGNITUDE"], [[("MAGNITUDE", Value.num 7)]]⟩

/-- C8 provider `A`: fails identically in both modes. -/
def c8pA : Provider := ⟨"A", FetchOutcome.fail "boom", FetchOutcome.fail "boom"⟩

/-- C8 provider `B`: succeeds identically in both modes. -/
def c8pB : Provider := ⟨"B", FetchOutcome.ok c8df, FetchOutcome.ok c8df⟩

/-- C8 context: `A` then `B`. -/
def c8ctx : PipelineContext := { providers := [c8pA, c8pB] }

/-- C8: evaluation of both fetch stages at the failing input of the
code-bug report (provider `A` fails, provider `B` returns data, sync and
async outcomes identical).  The data and failed-provider list agree, but
the log lines differ: the sync stage logs `[OK] B success` for the
provider that actually succeeded, while the async stage logs
`[OK] A success`, because it looks up
`context.providers[len(successful_data)-1]` — the count of successes so
far — instead of the provider whose result it is processing.  The two
execution modes therefore do not produce equal results. -/
theorem c8_async_success_log_misattribution :
    fetchDataSync c8ctx = Result.ok { c8ctx with
      data := some [c8df], failed_providers := ["A"],
      logs := ["[ERROR] A: A: boom", "[OK] B success"] } ∧
    fetchDataAsync c8ctx = Result.ok { c8ctx with
      data := some [c8df], failed_providers := ["A"],
      logs := ["[ERROR] A: boom", "[OK] A success"] } ∧
    (["[ERROR] A: A: boom", "[OK] B success"] : List String) ≠
      ["[ERROR] A: boom", "[OK] A success"] :=
  ⟨by decide, by decide, by decide⟩

end SelSvc

namespace SelSvc

/-- Is the pipeline-stage result a success? -/
def Result.isOk {α ε : Type} : Result α ε → Bool
  | .ok _ => true
  | .fail _ => false

/-- The failed-provider list of a successful stage result. -/
def resultFailedList (r : Result PipelineContext PipelineError) :
    Option (List String) :=
  match r with
  | .ok ctx => some ctx.failed_providers
  | .fail _ => none

/-- The combined table of a successful stage result. -/
def resultCombined (r : Result PipelineContext PipelineError) :
    Option DataFrame :=
  match r with
  | .ok ctx => ctx.combined_df
  | .fail _ => none

/-- The railway composition of the fetch and combine stages
(`_compose_sync` applied to `_fetch_data_sync` and `_combine_data`): the
combine stage runs only on a fetch success.  (The full `execute_sync`
additionally runs the validate stage before and the strategy/report
stages after; those stages contain the C4 code bugs.) -/
def fetchThenCombine (ctx : PipelineContext) :
    Result PipelineContext PipelineError :=
  match fetchDataSync ctx with
  | .ok ctx2 => combineData ctx2
  | .fail e => .fail e

/-- The 5-record table provider `A` returns in the C4 scenario. -/
def c4df : DataFrame :=
  ⟨["MAGNITUDE", "STATION"],
   [[("MAGNITUDE", Value.num 5), ("STATION", Value.str "S1")],
    [("MAGNITUDE", Value.num 6), ("STATION", Value.str "S2")],
    [("MAGNITUDE", Value.num 7), ("STATION", Value.str "S3")],
    [("MAGNITUDE", Value.num 5), ("STATION", Value.str "S4")],
    [("MAGNITUDE", Value.num 6), ("STATION", Value.str "S5")]]⟩

/-- C4 provider `A`: returns the 5-record table. -/
def c4pA : Provider := ⟨"A", FetchOutcome.ok c4df, FetchOutcome.ok c4df⟩

/-- C4 provider `B`: fails. -/
def c4pB : Provider := ⟨"B", FetchOutcome.fail "boom", FetchOutcome.fail "boom"⟩

/-- C4 context: providers `A` (5 records) and `B` (failing). -/
def c4ctx : PipelineContext := { providers := [c4pA, c4pB] }

/-- C4: evaluation of the fetch and combine stages at the claim's
scenario: the fetch-combine part behaves exactly as the claim says — the
run reaches combine with `failed_providers == ["B"]` and a 5-row
combined table.  (The claim's "pipeline run succeeds" is nevertheless
false of the code: `Pipeline.py` imports `TargetParameters` from
`Selection.py`, which does not define it, and `_apply_strategy` passes
`target_params.__dict__` — a plain dict — where `select_and_score`
requires a `SearchCriteria`; see the code-bug report.) -/
theorem c4_fetch_combine_evaluation :
    (fetchThenCombine c4ctx).isOk = true ∧
    resultFailedList (fetchThenCombine c4ctx) = some ["B"] ∧
    (resultCombined (fetchThenCombine c4ctx)).map
      (fun df => df.rows.length) = some 5 :=
  ⟨by decide, by decide, by decide⟩

/-- C5 source `X`: a numeric column and a text column. -/
def c5dfX : DataFrame :=
  ⟨["MAGNITUDE", "STATION"],
   [[("MAGNITUDE", Value.num 5), ("STATION", Value.str "A")]]⟩

/-- C5 source `Y`: only the numeric column — its rows have no STATION,
so the concatenated STATION cell for them is null. -/
def c5dfY : DataFrame := ⟨["MAGNITUDE"], [[("MAGNITUDE", Value.num 6)]]⟩

/-- C5 combine-stage input context. -/
def c5ctx : PipelineContext := { providers := [], data := some [c5dfX, c5dfY] }

/-- The combined table the code actually produces on `c5ctx`: the
text-typed STATION cell that was null now holds the number `0`. -/
def c5combined : DataFrame :=
  ⟨["MAGNITUDE", "STATION"],
   [[("MAGNITUDE", Value.num 5), ("STATION", Value.str "A")],
    [("MAGNITUDE", Value.num 6), ("STATION", Value.num 0)]]⟩

/-- C5: evaluation of the combine stage at the failing input of the
code-bug report.  `STATION` is a text (`object`-dtype) column, yet its
null cell ends up holding the number `0` rather than the empty string:
`fillna(0)` runs over the whole frame before the object-column
`fillna("")`, which is then a no-op — contradicting the source's own
comments ("0 for numeric columns", then "" for object columns) and the
claim. -/
theorem c5_text_null_filled_with_zero :
    resultCombined (combineData c5ctx) = some c5combined ∧
    c5combined.objectCols = ["STATION"] ∧
    ((c5combined.rows.get? 1).map (fun r => r.get "STATION")) =
      some (Value.num 0) ∧
    Value.num 0 ≠ Value.str "" :=
  ⟨by decide, by decide, by decide, by decide⟩

end SelSvc

namespace SelSvc

/-! ## `select_and_score` scored-table shape (claim C10) -/

/-- `scored_df['SCORE'] = values`: pandas overwrites the column in place
when it already exists, and otherwise appends it as the last column. -/
def DataFrame.setCol (df : DataFrame) (c : String) (vals : List Value) :
    DataFrame :=
  if df.cols.contains c then
    ⟨df.cols, (df.rows.zip vals).map (fun rv =>
      df.cols.map (fun c2 => (c2, if c2 = c then rv.2 else rv.1.get c2)))⟩
  else
    ⟨df.cols ++ [c], (df.rows.zip vals).map (fun rv =>
      rv.1.restrict df.cols ++ [(c, rv.2)])⟩

/-- The row-wise `scored_df.apply(..., axis=1)` computing a `SCORE` per
row, in row order; a raised error aborts the whole `apply`. -/
def scoresOf (expNeg : ℚ → ℚ) (crit : SearchCriteria) :
    List Row → Except PyErr (List Value)
  | [] => .ok []
  | r :: rs =>
      match calculate_total_score expNeg crit r with
      | .error e => .error e
      | .ok q =>
          match scoresOf expNeg crit rs with
          | .error e => .error e
          | .ok vs => .ok (Value.num q :: vs)

/-- The scored table `select_and_score` returns as its second component:
`df.copy()` plus the `SCORE` column.  An empty input short-circuits to
an empty frame.  The embedding is pure, so the caller's frame is shared
unmodified (`df.copy()` makes non-mutation inherent). -/
def scoreTable (expNeg : ℚ → ℚ) (crit : SearchCriteria) (df : DataFrame) :
    Except PyErr DataFrame :=
  if df.isEmptyDF then .ok DataFrame.emptyDF
  else
    match scoresOf expNeg crit df.rows with
    | .error e => .error e
    | .ok vals => .ok (df.setCol "SCORE" vals)

theorem scoresOf_length (expNeg : ℚ → ℚ) (crit : SearchCriteria) :
    ∀ (rows : List Row) (vals : List Value),
      scoresOf expNeg crit rows = .ok vals → vals.length = rows.length := by
  intro rows
  induction rows with
  | nil =>
      intro vals h
      have := Except.ok.inj h
      rw [← this]
      rfl
  | cons r rs ih =>
      intro vals h
      unfold scoresOf at h
      cases hq : calculate_total_score expNeg crit r with
      | error e => rw [hq] at h; exact absurd h (by simp)
      | ok q =>
          rw [hq] at h
          cases hs : scoresOf expNeg crit rs with
          | error e => rw [hs] at h; exact absurd h (by simp)
          | ok vs =>
              rw [hs] at h
              have := Except.ok.inj h
              rw [← this]
              simp [ih vs hs]

theorem Row.get_cons (p : String × Value) (r : Row) (c : String) :
    Row.get (p :: r) c = if p.1 = c then p.2 else Row.get r c := by
  by_cases h : p.1 = c
  · simp [Row.get, List.find?_cons, h]
  · simp [Row.get, List.find?_cons, h]

theorem Row.get_restrict_append (r : Row) (cols : List String) (tail : Row)
    (c : String) (hc : c ∈ cols) :
    Row.get ((r.restrict cols : Row) ++ tail) c = r.get c := by
  induction cols with
  | nil => cases hc
  | cons c2 cs ih =>
      show Row.get (((c2, r.get c2) :: (r.restrict cs : Row)) ++ tail) c = _
      rw [List.cons_append, Row.get_cons]
      by_cases h : c2 = c
      · rw [if_pos h, h]
      · rw [if_neg h]
        rcases List.mem_cons.mp hc with hcc | hcc
        · exact absurd hcc.symm h
        · exact ih hcc

/-- C10 (amended): on a non-empty input table whose rows score without a
`TypeError` and which has no `SCORE` column yet, the scored table equals
the input with exactly one appended column `SCORE`: same row count and
every input column's cells unchanged, row order preserved (and the pure
embedding of `df.copy()` leaves the input table itself untouched).  When
the input already has a `SCORE` column the code overwrites it in place
and adds no column — see the counterexample. -/
theorem c10_scored_table_shape (expNeg : ℚ → ℚ) (crit : SearchCriteria)
    (df scored : DataFrame)
    (hnonempty : df.isEmptyDF = false)
    (hnoscore : "SCORE" ∉ df.cols)
    (h : scoreTable expNeg crit df = .ok scored) :
    scored.cols = df.cols ++ ["SCORE"] ∧
    scored.rows.length = df.rows.length ∧
    (∀ i, ∀ hi : i < scored.rows.length, ∀ hi2 : i < df.rows.length,
      ∀ c ∈ df.cols,
        Row.get (scored.rows.get ⟨i, hi⟩) c =
          Row.get (df.rows.get ⟨i, hi2⟩) c) := by
  unfold scoreTable at h
  rw [if_neg (by simp [hnonempty])] at h
  cases hs : scoresOf expNeg crit df.rows with
  | error e => rw [hs] at h; exact absurd h (by simp)
  | ok vals =>
      rw [hs] at h
      have hset := Except.ok.inj h
      have hlen := scoresOf_length expNeg crit df.rows vals hs
      have hcontains : df.cols.contains "SCORE" = false := by
        simpa using hnoscore
      rw [DataFrame.setCol, if_neg (by simpa using hnoscore)] at hset
      subst hset
      refine ⟨rfl, ?_, ?_⟩
      · simp [hlen]
      · intro i hi hi2 c hc
        simp only [List.get_eq_getElem, List.getElem_map, List.getElem_zip]
        exact Row.get_restrict_append _ df.cols _ c hc

/-- Criteria used in the C10 instances (a magnitude range). -/
def c10crit : SearchCriteria :=
  { min_magnitude := some 6, max_magnitude := some 7 }

/-- A non-empty input table that already carries a `SCORE` column. -/
def c10dfS : DataFrame :=
  ⟨["SCORE", "STATION"],
   [[("SCORE", Value.num 10), ("STATION", Value.str "A")]]⟩

/-- What the code produces on `c10dfS`: `SCORE` overwritten in place. -/
def c10scoredS : DataFrame :=
  ⟨["SCORE", "STATION"],
   [[("SCORE", Value.num 0), ("STATION", Value.str "A")]]⟩

deriving instance DecidableEq for Except

/-- C10 counterexample: on a non-empty input that already has a `SCORE`
column, the scored table has the same columns as the input — no column
is added — refuting "exactly one added column" as universally stated. -/
theorem c10_counterexample :
    scoreTable expNeg0 c10crit c10dfS = .ok c10scoredS ∧
    c10scoredS.cols = c10dfS.cols ∧
    ¬ (c10scoredS.cols = c10dfS.cols ++ ["SCORE"]) :=
  ⟨by decide, by decide, by decide⟩

/-- A non-empty `SCORE`-free input table for the C10 witness (its
magnitude cell is NaN, so every scoring parameter is skipped). -/
def c10df : DataFrame :=
  ⟨["MAGNITUDE", "STATION"],
   [[("MAGNITUDE", Value.null), ("STATION", Value.str "A")]]⟩

/-- The scored table the code produces on `c10df`. -/
def c10scored : DataFrame :=
  ⟨["MAGNITUDE", "STATION", "SCORE"],
   [[("MAGNITUDE", Value.null), ("STATION", Value.str "A"),
     ("SCORE", Value.num 0)]]⟩

/-- Witness for C10 (amended) at a concrete input: one appended `SCORE`
column, same row count. -/
theorem c10_witness :
    scoreTable expNeg0 c10crit c10df = .ok c10scored ∧
    c10scored.cols = c10df.cols ++ ["SCORE"] ∧
    c10scored.rows.length = c10df.rows.length := by
  have hs : scoreTable expNeg0 c10crit c10df = .ok c10scored := by decide
  have h := c10_scored_table_shape expNeg0 c10crit c10df c10scored
    (by decide) (by decide) hs
  exact ⟨hs, h.1, h.2.1⟩

end SelSvc
